import Mathlib

/-!
Verification development for the rproc pseudo-file parsers.

The Rust sources are embedded shallowly: every parser becomes a pure Lean
function over the input text, with file contents and the current kernel
version passed in explicitly (the Rust code obtains them from /proc).
Fallible Rust code returning `Result` is modelled with `ParseOutcome`,
which distinguishes a returned `Err` value from a runtime panic
(out-of-bounds slice/index, or `Result::unwrap` on an `Err`).
All inputs of interest are ASCII, so Rust byte indices/lengths coincide
with character indices/lengths in the model.
-/

/-! ### Generic character and token helpers -/

/-- The closure `|m| m == '\n' || m == '\r'` passed to `trim_matches` in
`stat/*.rs` and `osrelease.rs`. -/
def isNlChar (c : Char) : Bool := c = '\n' || c = '\r'

/-- Rust `str::trim_matches` with the newline predicate: removes all
leading and trailing `'\n'`/`'\r'` characters. -/
def trimNlList (cs : List Char) : List Char :=
  ((cs.dropWhile isNlChar).reverse.dropWhile isNlChar).reverse

def trimNl (s : String) : String := ⟨trimNlList s.data⟩

/-- Rust `str::split_whitespace`: split on runs of whitespace, yielding no
empty tokens.  (Rust uses Unicode whitespace; `Char.isWhitespace` covers
space/tab/CR/LF, which is all that occurs in these pseudo-files.) -/
def splitWsAux : List Char → List Char → List String
  | [], acc => if acc = [] then [] else [⟨acc.reverse⟩]
  | c :: cs, acc =>
    if c.isWhitespace then
      if acc = [] then splitWsAux cs []
      else ⟨acc.reverse⟩ :: splitWsAux cs []
    else splitWsAux cs (c :: acc)

def splitWs (s : String) : List String := splitWsAux s.data []

/-- The shared token-extraction prelude of every `from_str` in `src/stat`:
`s.trim_matches(|m| m == '\n' || m == '\r').split_whitespace().collect()`. -/
def statTokens (s : String) : List String := splitWs (trimNl s)

/-- Rust `str::split(sep)` for a single-character separator: substrings
between occurrences of `sep`; never empty (splitting `""` gives `[""]`). -/
def splitOnChar (sep : Char) : List Char → List (List Char)
  | [] => [[]]
  | c :: cs =>
    match splitOnChar sep cs with
    | [] => [[]]
    | t :: ts => if c = sep then [] :: t :: ts else (c :: t) :: ts

def splitOnCharS (sep : Char) (s : String) : List String :=
  (splitOnChar sep s.data).map (fun cs => ⟨cs⟩)

/-! ### Base-10 numeric decoding (Rust `str::parse`) -/

def isDigitChar (c : Char) : Bool := '0' ≤ c && c ≤ '9'

def digitVal (c : Char) : Nat := c.toNat - 48

def digitsVal (cs : List Char) : Nat := cs.foldl (fun a c => 10 * a + digitVal c) 0

/-- A non-empty all-digit character run, decoded in base 10. -/
def parseNatDigits (cs : List Char) : Option Nat :=
  if cs = [] then none
  else if cs.all isDigitChar then some (digitsVal cs) else none

/-- Rust `str::parse::<uN>()`: optional leading `'+'`, then one or more
ASCII digits, rejected on overflow of the target width `bound = 2^N`. -/
def parseUBounded (bound : Nat) (s : String) : Option Nat :=
  let cs := match s.data with
    | '+' :: r => r
    | r => r
  match parseNatDigits cs with
  | none => none
  | some v => if v < bound then some v else none

def parseU8 : String → Option Nat := parseUBounded 256

def parseU16 : String → Option Nat := parseUBounded 65536

def parseU64 : String → Option Nat := parseUBounded (2 ^ 64)

/-- Rust `str::parse::<i32>()`: optional sign, digits, i32 range check. -/
def parseI32 (s : String) : Option Int :=
  match s.data with
  | '-' :: r =>
    match parseNatDigits r with
    | none => none
    | some v => if v ≤ 2 ^ 31 then some (-(v : Int)) else none
  | '+' :: r =>
    match parseNatDigits r with
    | none => none
    | some v => if v < 2 ^ 31 then some ((v : Int)) else none
  | r =>
    match parseNatDigits r with
    | none => none
    | some v => if v < 2 ^ 31 then some ((v : Int)) else none

/-! ### Outcomes of fallible Rust code -/

/-- Result of running a fallible Rust function: a returned value, a
returned `Err` (here always `ParseIntError`), or a runtime panic. -/
inductive ParseOutcome (α : Type) where
  | ok (a : α)
  | err
  | panicked
deriving DecidableEq

def ParseOutcome.bind {α β : Type} : ParseOutcome α → (α → ParseOutcome β) → ParseOutcome β
  | .ok a, f => f a
  | .err, _ => .err
  | .panicked, _ => .panicked

/-- Rust `Result::unwrap`: keeps the value, panics on `Err`. -/
def ParseOutcome.unwrap {α : Type} : ParseOutcome α → ParseOutcome α
  | .ok a => .ok a
  | .err => .panicked
  | .panicked => .panicked

/-- Rust slice indexing `l[i]`: the element, or an out-of-bounds panic. -/
def getTok (l : List String) (i : Nat) : ParseOutcome String :=
  match l[i]? with
  | some t => .ok t
  | none => .panicked

/-- The `?` operator applied to a `str::parse` result. -/
def liftParse {α : Type} : Option α → ParseOutcome α
  | some v => .ok v
  | none => .err

/-- The recurring Rust step `stats[i].parse::<u64>()?`. -/
def parseU64At (stats : List String) (i : Nat) : ParseOutcome Nat :=
  (getTok stats i).bind fun t => liftParse (parseU64 t)

theorem ParseOutcome.bind_eq_ok {α β : Type} {x : ParseOutcome α}
    {f : α → ParseOutcome β} {b : β} :
    x.bind f = .ok b ↔ ∃ a, x = .ok a ∧ f a = .ok b := by
  cases x <;> simp [ParseOutcome.bind]

theorem parseU64At_ok_lt {stats : List String} {i v : Nat}
    (h : parseU64At stats i = .ok v) : i < stats.length := by
  by_contra hlt
  rw [parseU64At, getTok, List.getElem?_eq_none (by omega)] at h
  simp [ParseOutcome.bind] at h

/-! ### src/sys/kernel/osrelease.rs -/

/-- Model of `osrelease::kernel_version`: Rust
`((major as u32) << 16) | ((minor as u32) << 8) | (if patch > 255 { 255 } else { patch })`.
Inputs are `u8`, `u8`, `u16`; the result always fits in `u32`, so no
wraparound is modelled. -/
def kernel_version (major minor patch : Nat) : Nat :=
  (major <<< 16) ||| (minor <<< 8) ||| (if patch > 255 then 255 else patch)

structure OsRelease where
  version_code : Nat
  major : Nat
  minor : Nat
  patch : Nat
deriving DecidableEq

/-- The numeric decode applied to the dot-separated components
`osrelease_v`: index then parse, in source order (`[0]` as `u8`, `[1]` as
`u8`, `[2]` as `u16`), with Rust index panics modelled by `getTok`. -/
def OsRelease.parseDotted (osrelease_v : List String) : ParseOutcome OsRelease :=
  (getTok osrelease_v 0).bind fun t0 =>
  (liftParse (parseU8 t0)).bind fun major =>
  (getTok osrelease_v 1).bind fun t1 =>
  (liftParse (parseU8 t1)).bind fun minor =>
  (getTok osrelease_v 2).bind fun t2 =>
  (liftParse (parseU16 t2)).bind fun patch =>
  .ok ⟨kernel_version major minor patch, major, minor, patch⟩

/-- Model of `OsRelease::from_str`: trim newlines, split on `'-'`, take component
`[0]`, split it on `'.'`, then decode the three leading components. -/
def OsRelease.from_str (s : String) : ParseOutcome OsRelease :=
  (getTok (splitOnCharS '-' (trimNl s)) 0).bind fun first =>
  OsRelease.parseDotted (splitOnCharS '.' first)

/-- The dot-separated component list `osrelease_v` seen by `from_str`. -/
def osComponents (s : String) : List String :=
  splitOnCharS '.' ((splitOnCharS '-' (trimNl s)).headD "")

/-! ### Arithmetic facts about the version encoder -/

theorem clamp255_eq_min (p : Nat) : (if p > 255 then 255 else p) = min p 255 := by
  split <;> omega

theorem kernel_version_eq (major minor patch : Nat) (hmin : minor < 256) :
    kernel_version major minor patch = 65536 * major + 256 * minor + min patch 255 := by
  rw [kernel_version, clamp255_eq_min, Nat.shiftLeft_eq, Nat.shiftLeft_eq,
    Nat.mul_comm major (2 ^ 16), Nat.mul_comm minor (2 ^ 8)]
  have h1 : (2 : Nat) ^ 16 * major + 2 ^ 8 * minor = 2 ^ 16 * major ||| 2 ^ 8 * minor :=
    Nat.mul_add_lt_is_or (by omega) major
  have h3 : (2 : Nat) ^ 16 * major + 2 ^ 8 * minor = 2 ^ 8 * (2 ^ 8 * major + minor) := by ring
  have h2 : (2 : Nat) ^ 8 * (2 ^ 8 * major + minor) + min patch 255
      = 2 ^ 8 * (2 ^ 8 * major + minor) ||| min patch 255 :=
    Nat.mul_add_lt_is_or (by omega) _
  rw [← h1, h3, ← h2]
  ring_nf

theorem splitOnChar_cons (sep : Char) (cs : List Char) :
    ∃ h t, splitOnChar sep cs = h :: t := by
  cases cs with
  | nil => exact ⟨[], [], rfl⟩
  | cons c cs =>
    rw [splitOnChar]
    rcases hr : splitOnChar sep cs with _ | ⟨t, ts⟩
    · exact ⟨[], [], rfl⟩
    · by_cases hc : c = sep
      · exact ⟨[], t :: ts, by simp [hc]⟩
      · exact ⟨c :: t, ts, by simp [hc]⟩

theorem from_str_eq_parseDotted (s : String) :
    OsRelease.from_str s = OsRelease.parseDotted (osComponents s) := by
  obtain ⟨h, t, heq⟩ := splitOnChar_cons '-' (trimNl s).data
  rw [OsRelease.from_str, osComponents, splitOnCharS, heq]
  simp [getTok, ParseOutcome.bind]

/-! ### src/pressure.rs -/

/-- A decimal floating-point value `mant / 10 ^ fexp`, recording exactly
the digits consumed by `fscanf`'s `%f` conversion.  PSI files print
fixed-point decimals; no claim here depends on binary float rounding. -/
structure DecFloat where
  mant : Int
  fexp : Nat
deriving DecidableEq

def DecFloat.zero : DecFloat := ⟨0, 0⟩

structure PressureAvg where
  avg10 : DecFloat
  avg60 : DecFloat
  avg300 : DecFloat
  total : Nat
deriving DecidableEq

/-- Rust `PressureAvg::default()`: all fields zero. -/
def PressureAvg.default : PressureAvg := ⟨.zero, .zero, .zero, 0⟩

structure PressureStore where
  some : PressureAvg
  full : PressureAvg
deriving DecidableEq

/-- Rust `PressureStore::default()`. -/
def PressureStore.default : PressureStore := ⟨.default, .default⟩

inductive Pressure where
  | Cpu
  | Mem
  | Io

def PRESSURE_FMT : String :=
  "some avg10=%f avg60=%f avg300=%f total=%llu full avg10=%f avg60=%f avg300=%f total=%llu"

def PRESSURE_FMT_NB_VAR : Nat := 8

def PRESSURE_FMT_CPU_OLD : String := "some avg10=%f avg60=%f avg300=%f total=%llu"

def PRESSURE_FMT_CPU_OLD_NB_VAR : Nat := 4

/-- Constant `KERNEL_5_13_VERSION_CODE = osrelease::kernel_version(5, 13, 0)`. -/
def KERNEL_5_13_VERSION_CODE : Nat := kernel_version 5 13 0

/-- One directive of an `fscanf` format string: a literal character, a
whitespace directive, or a `%f` / `%llu` conversion. -/
inductive ScanDir where
  | lit (c : Char)
  | ws
  | conv_f
  | conv_llu
deriving DecidableEq

/-- Compile a format string (only the directives occurring in the two
pressure format constants) into its directive list. -/
def dirsOf : List Char → List ScanDir
  | '%' :: 'f' :: rest => .conv_f :: dirsOf rest
  | '%' :: 'l' :: 'l' :: 'u' :: rest => .conv_llu :: dirsOf rest
  | ' ' :: rest => .ws :: dirsOf rest
  | c :: rest => .lit c :: dirsOf rest
  | [] => []

/-- Fractional part after an optional decimal point: `(digits, rest)`. -/
def scanFracPart (cs : List Char) : List Char × List Char :=
  match cs with
  | '.' :: rest => (rest.takeWhile isDigitChar, rest.dropWhile isDigitChar)
  | _ => ([], cs)

/-- Model of the `fscanf` conversion `%f`: skip whitespace, optional sign, digits with optional
decimal point (at least one digit).  Exponent and inf/nan forms of C
`strtof` never occur in PSI output and are not modelled. -/
def scanFloat (cs0 : List Char) : Option (DecFloat × List Char) :=
  let cs := cs0.dropWhile (·.isWhitespace)
  let signed : Bool × List Char :=
    match cs with
    | '-' :: r => (true, r)
    | '+' :: r => (false, r)
    | r => (false, r)
  let ip := signed.2.takeWhile isDigitChar
  let cs2 := signed.2.dropWhile isDigitChar
  let fr := scanFracPart cs2
  if ip = [] ∧ fr.1 = [] then none
  else
    let m : Nat := digitsVal (ip ++ fr.1)
    some (⟨if signed.1 then -(m : Int) else (m : Int), fr.1.length⟩, fr.2)

/-- Model of the `fscanf` conversion `%llu`: skip whitespace, then one or more digits.  The sign
and overflow forms accepted by C `strtoull` never occur in PSI output and
are not modelled. -/
def scanULL (cs0 : List Char) : Option (Nat × List Char) :=
  let cs := cs0.dropWhile (·.isWhitespace)
  let ds := cs.takeWhile isDigitChar
  if ds = [] then none else some (digitsVal ds, cs.dropWhile isDigitChar)

/-- One value assigned by `fscanf`, in assignment order. -/
inductive ScanVal where
  | fval (x : DecFloat)
  | uval (n : Nat)
deriving DecidableEq

/-- Run an `fscanf` format against the input: literal characters must
match exactly, a whitespace directive skips any amount of whitespace, and
conversions append their value.  On the first mismatch scanning stops,
keeping the values assigned so far (this is `fscanf`'s partial-assignment
behaviour; its return value is the length of the resulting list, and the
EOF return value -1 is not distinguished since the callers only compare
the return value against the expected conversion count). -/
def runScan : List ScanDir → List Char → List ScanVal
  | [], _ => []
  | .lit c :: ds, cs =>
    match cs with
    | c' :: cs' => if c' = c then runScan ds cs' else []
    | [] => []
  | .ws :: ds, cs => runScan ds (cs.dropWhile (·.isWhitespace))
  | .conv_f :: ds, cs =>
    match scanFloat cs with
    | some (x, cs') => .fval x :: runScan ds cs'
    | none => []
  | .conv_llu :: ds, cs =>
    match scanULL cs with
    | some (n, cs') => .uval n :: runScan ds cs'
    | none => []

/-- Store the `i`-th assigned value through the `i`-th pointer passed to
`fscanf` in `parse_pressure_file`: `some.avg10, some.avg60, some.avg300,
some.total, full.avg10, full.avg60, full.avg300, full.total`.  (A
type-mismatched combination cannot arise from the two format strings.) -/
def writeSlot (st : PressureStore) (i : Nat) (v : ScanVal) : PressureStore :=
  match i, v with
  | 0, .fval x => { st with some := { st.some with avg10 := x } }
  | 1, .fval x => { st with some := { st.some with avg60 := x } }
  | 2, .fval x => { st with some := { st.some with avg300 := x } }
  | 3, .uval n => { st with some := { st.some with total := n } }
  | 4, .fval x => { st with full := { st.full with avg10 := x } }
  | 5, .fval x => { st with full := { st.full with avg60 := x } }
  | 6, .fval x => { st with full := { st.full with avg300 := x } }
  | 7, .uval n => { st with full := { st.full with total := n } }
  | _, _ => st

def writeSlots (st : PressureStore) (i : Nat) : List ScanVal → PressureStore
  | [] => st
  | v :: vs => writeSlots (writeSlot st i v) (i + 1) vs

/-- Model of `PressureStore::parse_pressure_file`: `None` when the file cannot be
opened (modelled as `file = none`); otherwise scan the contents with the
given format and return `None` unless exactly `nb_var` conversions were
assigned. -/
def PressureStore.parse_pressure_file (file : Option String) (fmt : String) (nb_var : Nat) :
    Option PressureStore :=
  match file with
  | Option.none => Option.none
  | Option.some content =>
    let vals := runScan (dirsOf fmt.data) content.data
    let pstore := writeSlots PressureStore.default 0 vals
    if vals.length ≠ nb_var then Option.none else Option.some pstore

/-- Model of `PressureStore::new`.  `kv` is `KERNEL_VERSION.version_code` (read
once from /proc/sys/kernel/osrelease); `files` gives each domain's
pseudo-file contents, `none` when the file cannot be opened. -/
def PressureStore.new (kv : Nat) (files : Pressure → Option String) (t : Pressure) :
    Option PressureStore :=
  match t with
  | .Cpu =>
    if kv ≥ KERNEL_5_13_VERSION_CODE then
      PressureStore.parse_pressure_file (files .Cpu) PRESSURE_FMT PRESSURE_FMT_NB_VAR
    else
      PressureStore.parse_pressure_file (files .Cpu) PRESSURE_FMT_CPU_OLD
        PRESSURE_FMT_CPU_OLD_NB_VAR
  | .Mem => PressureStore.parse_pressure_file (files .Mem) PRESSURE_FMT PRESSURE_FMT_NB_VAR
  | .Io => PressureStore.parse_pressure_file (files .Io) PRESSURE_FMT PRESSURE_FMT_NB_VAR

/-! ### src/stat/cpu.rs -/

structure CpuStat where
  cpu_number : Int
  user : Nat
  nice : Nat
  system : Nat
  idle : Nat
  iowait : Nat
  irq : Nat
  softirq : Nat
  steal : Nat
  guest : Nat
  guest_nice : Nat
deriving DecidableEq

/-- Rust `CpuStat::default()`. -/
def CpuStat.default : CpuStat := ⟨0, 0, 0, 0, 0, 0, 0, 0, 0, 0, 0⟩

/-- The Rust step computing `cpu_number` from the keyword token
`stats[0]`: `-1` when the keyword has length 3, otherwise
`stats[0][3..].parse::<i32>()?`.  The byte slice `[3..]` panics when the
keyword is shorter than 3 bytes (that cannot happen via the dispatcher,
which only routes tokens starting with `"cpu"`). -/
def cpuNumberOf (k : String) : ParseOutcome Int :=
  if k.length = 3 then .ok (-1)
  else if k.length < 3 then .panicked
  else liftParse (parseI32 ⟨k.data.drop 3⟩)

/-- Model of `CpuStat::from_str`.  The `debug_assert!` on the keyword is compiled
out of release builds and is not modelled. -/
def CpuStat.from_str (s : String) : ParseOutcome CpuStat :=
  let stats := statTokens s
  (getTok stats 0).bind fun k =>
  (cpuNumberOf k).bind fun cpu_number =>
  (parseU64At stats 1).bind fun user =>
  (parseU64At stats 2).bind fun nice =>
  (parseU64At stats 3).bind fun system =>
  (parseU64At stats 4).bind fun idle =>
  (parseU64At stats 5).bind fun iowait =>
  (parseU64At stats 6).bind fun irq =>
  (parseU64At stats 7).bind fun softirq =>
  (parseU64At stats 8).bind fun steal =>
  (parseU64At stats 9).bind fun guest =>
  (parseU64At stats 10).bind fun guest_nice =>
  .ok ⟨cpu_number, user, nice, system, idle, iowait, irq, softirq, steal, guest, guest_nice⟩

/-! ### src/stat/softirq.rs -/

structure Softirqs where
  all : Nat
  hi : Nat
  timer : Nat
  net_tx : Nat
  net_rx : Nat
  block : Nat
  irq_poll : Nat
  tasklet : Nat
  sched : Nat
  hrtimer : Nat
  rcu : Nat
deriving DecidableEq

/-- Rust `Softirqs::default()`. -/
def Softirqs.default : Softirqs := ⟨0, 0, 0, 0, 0, 0, 0, 0, 0, 0, 0⟩

/-- Model of `Softirqs::from_str`.  The `debug_assert!` on the keyword is compiled
out of release builds and is not modelled. -/
def Softirqs.from_str (s : String) : ParseOutcome Softirqs :=
  let softirqs := statTokens s
  (parseU64At softirqs 1).bind fun all =>
  (parseU64At softirqs 2).bind fun hi =>
  (parseU64At softirqs 3).bind fun timer =>
  (parseU64At softirqs 4).bind fun net_tx =>
  (parseU64At softirqs 5).bind fun net_rx =>
  (parseU64At softirqs 6).bind fun block =>
  (parseU64At softirqs 7).bind fun irq_poll =>
  (parseU64At softirqs 8).bind fun tasklet =>
  (parseU64At softirqs 9).bind fun sched =>
  (parseU64At softirqs 10).bind fun hrtimer =>
  (parseU64At softirqs 11).bind fun rcu =>
  .ok ⟨all, hi, timer, net_tx, net_rx, block, irq_poll, tasklet, sched, hrtimer, rcu⟩

/-! ### src/stat/simple_stat.rs and src/stat/pageswap.rs -/

/-- Rust tuple struct `SimpleU64Stat(u64)`; `val` models field `.0`. -/
structure SimpleU64Stat where
  val : Nat
deriving DecidableEq

/-- Model of `SimpleU64Stat::from_str` (shared by the `Btime`, `Ctxt`,
`Processes`, `ProcsRunning` and `ProcsBlocked` aliases):
`stats[1].parse::<u64>()?`, never looking at `stats[0]`. -/
def SimpleU64Stat.from_str (s : String) : ParseOutcome SimpleU64Stat :=
  (parseU64At (statTokens s) 1).bind fun v => .ok ⟨v⟩

structure DoubleU64Stat where
  ins : Nat
  out : Nat
deriving DecidableEq

/-- Model of `DoubleU64Stat::from_str` (shared by the `Page` and `Swap` aliases):
`double[1].parse::<u64>()?` then `double[2].parse::<u64>()?`. -/
def DoubleU64Stat.from_str (s : String) : ParseOutcome DoubleU64Stat :=
  (parseU64At (statTokens s) 1).bind fun ins =>
  (parseU64At (statTokens s) 2).bind fun out =>
  .ok ⟨ins, out⟩

/-! ### src/stat/mod.rs -/

structure Stat where
  cpus : List CpuStat
  ctxt : SimpleU64Stat
  btime : SimpleU64Stat
  processes : SimpleU64Stat
  procs_running : SimpleU64Stat
  procs_blocked : SimpleU64Stat
  softirqs : Softirqs
  page : DoubleU64Stat
  swap : DoubleU64Stat
deriving DecidableEq

/-- Rust `Stat::default()`. -/
def Stat.default : Stat := ⟨[], ⟨0⟩, ⟨0⟩, ⟨0⟩, ⟨0⟩, ⟨0⟩, Softirqs.default, ⟨0, 0⟩, ⟨0, 0⟩⟩

/-- Processing of one line of the loop body in `Stat::parse_stat_file`:
take the first whitespace token (`.next().unwrap()` panics on an
all-whitespace line), dispatch on it in source order, and `.unwrap()` the
section parser's result (so a failed section parse panics).  A leading
token equal to none of the keywords and not starting with `"cpu"` only
prints a diagnostic to stderr and leaves the record unchanged. -/
def Stat.applyLine (stats : Stat) (l : String) : ParseOutcome Stat :=
  match (splitWs l).head? with
  | Option.none => .panicked
  | Option.some stat_type =>
    match stat_type with
    | "btime" => ((SimpleU64Stat.from_str l).unwrap).bind fun v => .ok { stats with btime := v }
    | "ctxt" => ((SimpleU64Stat.from_str l).unwrap).bind fun v => .ok { stats with ctxt := v }
    | "processes" =>
      ((SimpleU64Stat.from_str l).unwrap).bind fun v => .ok { stats with processes := v }
    | "procs_blocked" =>
      ((SimpleU64Stat.from_str l).unwrap).bind fun v => .ok { stats with procs_blocked := v }
    | "procs_running" =>
      ((SimpleU64Stat.from_str l).unwrap).bind fun v => .ok { stats with procs_running := v }
    | "softirq" => ((Softirqs.from_str l).unwrap).bind fun v => .ok { stats with softirqs := v }
    | "page" => ((DoubleU64Stat.from_str l).unwrap).bind fun v => .ok { stats with page := v }
    | "swap" => ((DoubleU64Stat.from_str l).unwrap).bind fun v => .ok { stats with swap := v }
    | _ =>
      if stat_type.data.take 3 = ['c', 'p', 'u'] then
        ((CpuStat.from_str l).unwrap).bind fun c => .ok { stats with cpus := stats.cpus ++ [c] }
      else
        .ok stats

def Stat.parse_stat_file_aux (stats : Stat) : List String → ParseOutcome Stat
  | [] => .ok stats
  | l :: rest => (Stat.applyLine stats l).bind fun s => Stat.parse_stat_file_aux s rest

/-- Model of `Stat::parse_stat_file`, with the file given as its list of lines
(`BufRead::lines` strips the terminators; I/O errors on single lines are
not modelled). -/
def Stat.parse_stat_file (lines : List String) : ParseOutcome Stat :=
  Stat.parse_stat_file_aux Stat.default lines

/-! ### Claims about the version encoder and release-string decoding -/

/-- Claim C2: the version-code encoder is strictly increasing in the
lexicographic order of (major, minor, min(patch, 255)) over valid u8/u8/u16
inputs, collapses patches at or above 255, and satisfies the pinned values
encode(3,18,0) = 201216, encode(5,14,12) = 331276, encode(4,4,288) = 263423. -/
theorem C2_version_code_encoder :
    (∀ major minor patch major' minor' patch' : Nat,
        major < 256 → minor < 256 → patch < 65536 →
        major' < 256 → minor' < 256 → patch' < 65536 →
        (major < major' ∨ (major = major' ∧ minor < minor') ∨
          (major = major' ∧ minor = minor' ∧ min patch 255 < min patch' 255)) →
        kernel_version major minor patch < kernel_version major' minor' patch')
    ∧ (∀ major minor patch1 patch2 : Nat, 255 ≤ patch1 → 255 ≤ patch2 →
        kernel_version major minor patch1 = kernel_version major minor patch2)
    ∧ kernel_version 3 18 0 = 201216
    ∧ kernel_version 5 14 12 = 331276
    ∧ kernel_version 4 4 288 = 263423 := by
  refine ⟨?_, ?_, by decide, by decide, by decide⟩
  · intro a b p a' b' p' ha hb hp ha' hb' hp' hlex
    rw [kernel_version_eq a b p hb, kernel_version_eq a' b' p' hb']
    omega
  · intro a b p1 p2 h1 h2
    rw [kernel_version, kernel_version]
    have e1 : (if p1 > 255 then 255 else p1) = 255 := by split <;> omega
    have e2 : (if p2 > 255 then 255 else p2) = 255 := by split <;> omega
    rw [e1, e2]

/-- Witness for C2 at concrete inputs. -/
theorem C2_version_code_encoder_witness :
    kernel_version 3 18 0 < kernel_version 5 14 12
    ∧ kernel_version 4 4 288 = kernel_version 4 4 300 :=
  ⟨C2_version_code_encoder.1 3 18 0 5 14 12 (by decide) (by decide) (by decide) (by decide)
      (by decide) (by decide) (Or.inl (by decide)),
    C2_version_code_encoder.2.1 4 4 288 300 (by decide) (by decide)⟩

/-- Claim C8: parsing "5.14.12-amd64" and "5.14.12" yields identical
KernelVersion values (version_code 331276, major 5, minor 14, patch 12);
the suffix after the first dash is stripped before the dot split. -/
theorem C8_dash_suffix_stripped :
    OsRelease.from_str "5.14.12-amd64" = .ok ⟨331276, 5, 14, 12⟩
    ∧ OsRelease.from_str "5.14.12" = .ok ⟨331276, 5, 14, 12⟩ :=
  ⟨rfl, rfl⟩

/-- Counterexample to claim C7: decoding the two-component release string
"5.14" panics (index out of bounds on `osrelease_v[2]`) instead of
returning a Malformed error value. -/
theorem C7_two_component_release_panics :
    OsRelease.from_str "5.14" = .panicked := rfl

/-- Claim C7 as amended: decoding never succeeds on a release string with
fewer than three dot-separated components or a non-numeric component among
the first three; a non-numeric component among three present components
yields the error value, but a string with fewer than three components
(whose present leading components are numeric) panics on the out-of-bounds
index instead of returning an error. -/
theorem C7_osrelease_malformed :
    (∀ s : String, (osComponents s).length < 3 → ∀ r, OsRelease.from_str s ≠ .ok r)
    ∧ (∀ s t0 t1 t2 rest, osComponents s = t0 :: t1 :: t2 :: rest →
        (parseU8 t0 = none ∨ parseU8 t1 = none ∨ parseU16 t2 = none) →
        OsRelease.from_str s = .err) := by
  constructor
  · intro s hlen r h
    rw [from_str_eq_parseDotted, OsRelease.parseDotted] at h
    simp only [ParseOutcome.bind_eq_ok] at h
    obtain ⟨t0, h0, m, hm, t1, h1, mi, hmi, t2, h2, -⟩ := h
    rw [getTok] at h2
    rcases hg : (osComponents s)[2]? with _ | t
    · rw [hg] at h2
      exact absurd h2 (by simp)
    · have := (List.getElem?_eq_some_iff.mp hg).1
      omega
  · intro s t0 t1 t2 rest hcomp hbad
    rw [from_str_eq_parseDotted, OsRelease.parseDotted, hcomp]
    have g0 : getTok (t0 :: t1 :: t2 :: rest) 0 = .ok t0 := by simp [getTok]
    have g1 : getTok (t0 :: t1 :: t2 :: rest) 1 = .ok t1 := by simp [getTok]
    have g2 : getTok (t0 :: t1 :: t2 :: rest) 2 = .ok t2 := by simp [getTok]
    rcases hbad with hb | hb | hb
    · simp [g0, liftParse, hb, ParseOutcome.bind]
    · rcases hp0 : parseU8 t0 with _ | m
      · simp [g0, liftParse, hp0, ParseOutcome.bind]
      · simp [g0, g1, liftParse, hp0, hb, ParseOutcome.bind]
    · rcases hp0 : parseU8 t0 with _ | m
      · simp [g0, liftParse, hp0, ParseOutcome.bind]
      · rcases hp1 : parseU8 t1 with _ | mi
        · simp [g0, g1, liftParse, hp0, hp1, ParseOutcome.bind]
        · simp [g0, g1, g2, liftParse, hp0, hp1, hb, ParseOutcome.bind]

/-- Witness for C7 at concrete inputs. -/
theorem C7_osrelease_malformed_witness :
    OsRelease.from_str "5.14" ≠ .ok ⟨331008, 5, 14, 0⟩
    ∧ OsRelease.from_str "5.14.x" = .err :=
  ⟨C7_osrelease_malformed.1 "5.14" (by decide) ⟨331008, 5, 14, 0⟩,
    C7_osrelease_malformed.2 "5.14.x" "5" "14" "x" [] rfl (Or.inr (Or.inr rfl))⟩

/-! ### Claims about the fixed-grammar stat line parsers -/

/-- Counterexample to claim C3: a CPU line with only 8 trailing numeric
fields makes `CpuStat::from_str` panic (index out of bounds) instead of
returning an error value; no `GrammarError` type exists in the code. -/
theorem C3_short_cpu_line_panics :
    CpuStat.from_str "cpu2 1393280 32966 572056 13343292 6130 0 17875 0\n" = .panicked := rfl

/-- Claim C3 as amended: an input line with fewer whitespace-delimited
tokens than the record requires never produces a (partial) record — but
the failure is an out-of-bounds panic on the first missing field (or an
error value if an earlier, present field already fails numeric parsing),
not a returned too-few-fields error value. -/
theorem C3_short_line_never_ok :
    (∀ s c, (statTokens s).length < 11 → CpuStat.from_str s ≠ .ok c)
    ∧ (∀ s r, (statTokens s).length < 12 → Softirqs.from_str s ≠ .ok r) := by
  constructor
  · intro s c hlen h
    simp only [CpuStat.from_str, ParseOutcome.bind_eq_ok] at h
    obtain ⟨k, -, n, -, a1, -, a2, -, a3, -, a4, -, a5, -, a6, -, a7, -, a8, -, a9, -, a10, h10,
      -⟩ := h
    have := parseU64At_ok_lt h10
    omega
  · intro s r hlen h
    simp only [Softirqs.from_str, ParseOutcome.bind_eq_ok] at h
    obtain ⟨a1, -, a2, -, a3, -, a4, -, a5, -, a6, -, a7, -, a8, -, a9, -, a10, -, a11, h11, -⟩
      := h
    have := parseU64At_ok_lt h11
    omega

/-- Witness for C3 at a concrete short line. -/
theorem C3_short_line_never_ok_witness :
    CpuStat.from_str "cpu2 1 2" ≠ .ok CpuStat.default :=
  C3_short_line_never_ok.1 "cpu2 1 2" CpuStat.default (by decide)

/-- Counterexample to claim C4: a negative index suffix does not make
parsing fail — the keyword "cpu-5" yields cpu_number = -5 because the
suffix is parsed as a signed i32, and for the keyword "cpu-1" (not equal
to "cpu") the result is -1, contradicting both the "non-negative"
requirement and the "exactly when" characterization. -/
theorem C4_negative_suffix_accepted :
    CpuStat.from_str "cpu-5 0 0 0 0 0 0 0 0 0 0" = .ok ⟨-5, 0, 0, 0, 0, 0, 0, 0, 0, 0, 0⟩ := rfl

/-- Claim C4 as amended: cpu_number is -1 when the keyword token has
length 3 (i.e. is exactly "cpu"); otherwise the substring after the
3-character prefix must parse as a signed 32-bit integer, which becomes
cpu_number (so negative suffixes are accepted, not rejected), and a suffix
that does not parse as an i32 makes parsing fail with an error value,
never a silent default. -/
theorem C4_cpu_number_rule :
    (∀ s k rest c, statTokens s = k :: rest → CpuStat.from_str s = .ok c →
        ((k.length = 3 ∧ c.cpu_number = -1)
          ∨ (3 < k.length ∧ parseI32 ⟨k.data.drop 3⟩ = some c.cpu_number)))
    ∧ (∀ s k rest, statTokens s = k :: rest → 3 < k.length →
        parseI32 ⟨k.data.drop 3⟩ = none → CpuStat.from_str s = .err) := by
  constructor
  · intro s k rest c htok h
    simp only [CpuStat.from_str, htok, ParseOutcome.bind_eq_ok] at h
    obtain ⟨k', hk', n, hn, a1, -, a2, -, a3, -, a4, -, a5, -, a6, -, a7, -, a8, -, a9, -, hfin⟩
      := h
    obtain ⟨a10, -, hrec⟩ := hfin
    have hkk : k = k' := by simpa [getTok] using hk'
    subst hkk
    have hcn : c.cpu_number = n := by
      have := (ParseOutcome.ok.inj hrec)
      rw [← this]
    rw [cpuNumberOf] at hn
    by_cases h3 : k.length = 3
    · rw [if_pos h3] at hn
      exact Or.inl ⟨h3, by rw [hcn, ← ParseOutcome.ok.inj hn]⟩
    · rw [if_neg h3] at hn
      by_cases hlt : k.length < 3
      · rw [if_pos hlt] at hn
        exact absurd hn (by simp)
      · rw [if_neg hlt] at hn
        refine Or.inr ⟨by omega, ?_⟩
        rcases hp : parseI32 ⟨k.data.drop 3⟩ with _ | z
        · rw [hp] at hn
          exact absurd hn (by simp [liftParse])
        · rw [hp] at hn
          simp only [liftParse] at hn
          have hzn : z = n := ParseOutcome.ok.inj hn
          rw [hcn, ← hzn]
  · intro s k rest htok h3 hpar
    have hne : ¬ k.length = 3 := by omega
    have hnlt : ¬ k.length < 3 := by omega
    simp [CpuStat.from_str, htok, getTok, cpuNumberOf, hne, hnlt, hpar, liftParse,
      ParseOutcome.bind]

/-- Witness for C4 at concrete inputs: a non-numeric suffix errs, and a
well-formed per-CPU line satisfies the keyword rule. -/
theorem C4_cpu_number_rule_witness :
    CpuStat.from_str "cpuN 1393280 32966 572056 13343292 6130 0 17875 0 23933 0" = .err
    ∧ ((("cpu2" : String).length = 3
          ∧ (CpuStat.mk 2 1393280 32966 572056 13343292 6130 0 17875 0 23933 0).cpu_number = -1)
        ∨ (3 < ("cpu2" : String).length
          ∧ parseI32 ⟨("cpu2" : String).data.drop 3⟩
            = some (CpuStat.mk 2 1393280 32966 572056 13343292 6130 0 17875 0 23933 0).cpu_number)) :=
  ⟨C4_cpu_number_rule.2 "cpuN 1393280 32966 572056 13343292 6130 0 17875 0 23933 0" "cpuN"
      ["1393280", "32966", "572056", "13343292", "6130", "0", "17875", "0", "23933", "0"]
      rfl (by decide) rfl,
    C4_cpu_number_rule.1 "cpu2 1393280 32966 572056 13343292 6130 0 17875 0 23933 0" "cpu2"
      ["1393280", "32966", "572056", "13343292", "6130", "0", "17875", "0", "23933", "0"]
      (CpuStat.mk 2 1393280 32966 572056 13343292 6130 0 17875 0 23933 0) rfl rfl⟩

/-- Claim C10: the single-value and pair stat parsers never inspect the
leading keyword token — whenever the second (and, for pairs, third)
whitespace-delimited token parses as an unsigned 64-bit base-10 integer,
`from_str` succeeds with those values, whatever the first token is. -/
theorem C10_keyword_ignored :
    (∀ s t0 t1 rest v, statTokens s = t0 :: t1 :: rest → parseU64 t1 = some v →
        SimpleU64Stat.from_str s = .ok ⟨v⟩)
    ∧ (∀ s t0 t1 t2 rest v1 v2, statTokens s = t0 :: t1 :: t2 :: rest →
        parseU64 t1 = some v1 → parseU64 t2 = some v2 →
        DoubleU64Stat.from_str s = .ok ⟨v1, v2⟩) := by
  constructor
  · intro s t0 t1 rest v htok hp
    simp [SimpleU64Stat.from_str, htok, parseU64At, getTok, liftParse, hp, ParseOutcome.bind]
  · intro s t0 t1 t2 rest v1 v2 htok hp1 hp2
    simp [DoubleU64Stat.from_str, htok, parseU64At, getTok, liftParse, hp1, hp2,
      ParseOutcome.bind]

/-- Witness for C10: a bogus keyword is accepted by both parsers. -/
theorem C10_keyword_ignored_witness :
    SimpleU64Stat.from_str "bogus 42" = .ok ⟨42⟩
    ∧ DoubleU64Stat.from_str "bogus 1 2" = .ok ⟨1, 2⟩ :=
  ⟨C10_keyword_ignored.1 "bogus 42" "bogus" "42" [] 42 rfl rfl,
    C10_keyword_ignored.2 "bogus 1 2" "bogus" "1" "2" [] 1 2 rfl rfl rfl⟩

/-! ### Claims about the stat aggregator -/

/-- Claim C5: an aggregate stat read over a fixture with "btime 12345",
"ctxt 115315", two well-formed cpu lines and one unrecognized
"unknownsection 1 2 3" line yields btime = 12345, ctxt = 115315, exactly
the two CPU records in file order, and all other sections at their
defaults; the unrecognized line is skipped without failing the read. -/
theorem C5_stat_fixture :
    Stat.parse_stat_file
      ["btime 12345", "ctxt 115315",
        "cpu  10132153 290696 3084719 46828483 16683 42 25195 4242 175628 424242",
        "cpu0 1393280 32966 572056 13343292 6130 0 17875 0 23933 0",
        "unknownsection 1 2 3"]
    = .ok { Stat.default with
        btime := ⟨12345⟩,
        ctxt := ⟨115315⟩,
        cpus :=
          [⟨-1, 10132153, 290696, 3084719, 46828483, 16683, 42, 25195, 4242, 175628, 424242⟩,
            ⟨0, 1393280, 32966, 572056, 13343292, 6130, 0, 17875, 0, 23933, 0⟩] } := rfl

/-- Counterexample to claim C6: a non-numeric field in a recognized
"ctxt" section does not degrade that section only — the whole read
panics (`.unwrap()` on the section parser's `Err`), so the well-formed
"btime 12345" line of the same input is lost too. -/
theorem C6_bad_section_panics :
    Stat.parse_stat_file ["ctxt 115315.0", "btime 12345"] = .panicked := rfl

theorem unwrap_bind_ok_ne_err {α β : Type} (x : ParseOutcome α) (g : α → β) :
    (x.unwrap).bind (fun a => ParseOutcome.ok (g a)) ≠ .err := by
  cases x <;> simp [ParseOutcome.unwrap, ParseOutcome.bind]

theorem Stat.applyLine_ne_err (st : Stat) (l : String) : Stat.applyLine st l ≠ .err := by
  rcases hh : (splitWs l).head? with _ | t
  · simp [Stat.applyLine, hh]
  · simp only [Stat.applyLine, hh]
    split <;> try exact unwrap_bind_ok_ne_err _ _
    split
    · exact unwrap_bind_ok_ne_err _ _
    · simp

theorem parse_stat_file_aux_panics (post : List String) (l : String)
    (hl : ∀ st, Stat.applyLine st l = .panicked) :
    ∀ pre st, Stat.parse_stat_file_aux st (pre ++ l :: post) = .panicked := by
  intro pre
  induction pre with
  | nil =>
    intro st
    rw [List.nil_append, Stat.parse_stat_file_aux, hl st]
    rfl
  | cons p ps ih =>
    intro st
    rw [List.cons_append, Stat.parse_stat_file_aux]
    rcases hp : Stat.applyLine st p with s | _ | _
    · simpa [ParseOutcome.bind] using ih s
    · exact absurd hp (Stat.applyLine_ne_err st p)
    · rfl

/-- Claim C6 as amended: a parse failure inside a recognized section line
is not contained to that section — processing of such a line panics, and
the panic aborts the entire read wherever the line occurs, so no
SystemStat is returned at all (the other well-formed sections are lost
with it).  Only unrecognized leading tokens degrade to skipping. -/
theorem C6_recognized_failure_aborts :
    (∀ pre post l, (∀ st, Stat.applyLine st l = .panicked) →
        Stat.parse_stat_file (pre ++ l :: post) = .panicked)
    ∧ (∀ pre post s, (splitWs s).head? = some "ctxt" → SimpleU64Stat.from_str s = .err →
        Stat.parse_stat_file (pre ++ s :: post) = .panicked) := by
  have main : ∀ pre post l, (∀ st, Stat.applyLine st l = .panicked) →
      Stat.parse_stat_file (pre ++ l :: post) = .panicked := by
    intro pre post l hl
    exact parse_stat_file_aux_panics post l hl pre Stat.default
  refine ⟨main, ?_⟩
  intro pre post s hh hf
  refine main pre post s (fun st => ?_)
  simp [Stat.applyLine, hh, hf, ParseOutcome.unwrap, ParseOutcome.bind]

/-- Witness for C6: the bad "ctxt" line aborts a read that also contains
a well-formed "btime" line. -/
theorem C6_recognized_failure_aborts_witness :
    Stat.parse_stat_file ["btime 12345", "ctxt 115315.0"] = .panicked :=
  C6_recognized_failure_aborts.2 ["btime 12345"] [] "ctxt 115315.0" rfl rfl

/-! ### Claims about the pressure parser -/

theorem writeSlot_full (st : PressureStore) (v : ScanVal) :
    ∀ i, i < 4 → (writeSlot st i v).full = st.full := by
  intro i hi
  interval_cases i <;> cases v <;> rfl

theorem writeSlots_full (vs : List ScanVal) :
    ∀ i st, i + vs.length ≤ 4 → (writeSlots st i vs).full = st.full := by
  induction vs with
  | nil => intro i st h; rfl
  | cons v vs ih =>
    intro i st h
    rw [writeSlots]
    rw [ih (i + 1) _ (by simp only [List.length_cons] at h; omega)]
    exact writeSlot_full st v i (by simp only [List.length_cons] at h; omega)

/-- A successful scan against the legacy 4-conversion CPU format never
touches the `full` sub-record, which therefore stays at its default. -/
theorem parse_old_full_default (file : Option String) (st : PressureStore)
    (h : PressureStore.parse_pressure_file file PRESSURE_FMT_CPU_OLD PRESSURE_FMT_CPU_OLD_NB_VAR
        = some st) : st.full = PressureAvg.default := by
  rcases file with _ | content
  · exact absurd h (by simp [PressureStore.parse_pressure_file])
  · simp only [PressureStore.parse_pressure_file, PRESSURE_FMT_CPU_OLD_NB_VAR] at h
    split at h
    · exact absurd h (by simp)
    · rename_i hlen
      have hst : st = writeSlots PressureStore.default 0
          (runScan (dirsOf PRESSURE_FMT_CPU_OLD.data) content.data) :=
        (Option.some.inj h).symm
      rw [hst, writeSlots_full _ 0 PressureStore.default (by omega)]
      rfl

/-- Claim C1: for the Cpu domain, `PressureStore::new` selects the
8-field "some + full" grammar exactly when the current kernel version
code is at least encode(5,13,0), and otherwise the legacy 4-field
"some only" grammar, under which any returned record has an all-zero
`full` sub-record; the Memory and Io domains always use the 8-field
grammar. -/
theorem C1_pressure_grammar_selection :
    (∀ kv files, kernel_version 5 13 0 ≤ kv →
        PressureStore.new kv files .Cpu
          = PressureStore.parse_pressure_file (files .Cpu) PRESSURE_FMT PRESSURE_FMT_NB_VAR)
    ∧ (∀ kv files, kv < kernel_version 5 13 0 →
        PressureStore.new kv files .Cpu
          = PressureStore.parse_pressure_file (files .Cpu) PRESSURE_FMT_CPU_OLD
              PRESSURE_FMT_CPU_OLD_NB_VAR)
    ∧ (∀ kv files st, kv < kernel_version 5 13 0 →
        PressureStore.new kv files .Cpu = some st →
        st.full.avg10 = DecFloat.zero ∧ st.full.avg60 = DecFloat.zero
          ∧ st.full.avg300 = DecFloat.zero ∧ st.full.total = 0)
    ∧ (∀ kv files,
        PressureStore.new kv files .Mem
          = PressureStore.parse_pressure_file (files .Mem) PRESSURE_FMT PRESSURE_FMT_NB_VAR)
    ∧ (∀ kv files,
        PressureStore.new kv files .Io
          = PressureStore.parse_pressure_file (files .Io) PRESSURE_FMT PRESSURE_FMT_NB_VAR) := by
  have hcpuOld : ∀ kv files, kv < kernel_version 5 13 0 →
      PressureStore.new kv files Pressure.Cpu
        = PressureStore.parse_pressure_file (files Pressure.Cpu) PRESSURE_FMT_CPU_OLD
            PRESSURE_FMT_CPU_OLD_NB_VAR := by
    intro kv files h
    rw [PressureStore.new, if_neg (by rw [KERNEL_5_13_VERSION_CODE]; omega)]
  refine ⟨?_, hcpuOld, ?_, ?_, ?_⟩
  · intro kv files h
    rw [PressureStore.new, if_pos (by rw [KERNEL_5_13_VERSION_CODE]; exact h)]
  · intro kv files st h hsome
    rw [hcpuOld kv files h] at hsome
    have hf := parse_old_full_default _ _ hsome
    rw [hf]
    exact ⟨rfl, rfl, rfl, rfl⟩
  · intro kv files
    rw [PressureStore.new]
  · intro kv files
    rw [PressureStore.new]

def psiCpuOldContent : String := "some avg10=0.00 avg60=0.00 avg300=0.00 total=100"

/-- Witness for C1 at concrete inputs: the version threshold decides the
grammar, and a legacy-format read returns a record with `full` zero. -/
theorem C1_pressure_grammar_selection_witness :
    (PressureStore.new (kernel_version 5 13 0) (fun _ => some psiCpuOldContent) Pressure.Cpu
      = PressureStore.parse_pressure_file (some psiCpuOldContent) PRESSURE_FMT
          PRESSURE_FMT_NB_VAR)
    ∧ (PressureStore.new (kernel_version 5 12 0) (fun _ => some psiCpuOldContent) Pressure.Cpu
      = PressureStore.parse_pressure_file (some psiCpuOldContent) PRESSURE_FMT_CPU_OLD
          PRESSURE_FMT_CPU_OLD_NB_VAR)
    ∧ ((⟨⟨⟨0, 2⟩, ⟨0, 2⟩, ⟨0, 2⟩, 100⟩, PressureAvg.default⟩ : PressureStore).full.avg10
          = DecFloat.zero
        ∧ (⟨⟨⟨0, 2⟩, ⟨0, 2⟩, ⟨0, 2⟩, 100⟩, PressureAvg.default⟩ : PressureStore).full.avg60
          = DecFloat.zero
        ∧ (⟨⟨⟨0, 2⟩, ⟨0, 2⟩, ⟨0, 2⟩, 100⟩, PressureAvg.default⟩ : PressureStore).full.avg300
          = DecFloat.zero
        ∧ (⟨⟨⟨0, 2⟩, ⟨0, 2⟩, ⟨0, 2⟩, 100⟩, PressureAvg.default⟩ : PressureStore).full.total
          = 0)
    ∧ (PressureStore.new 0 (fun _ => some psiCpuOldContent) Pressure.Mem
      = PressureStore.parse_pressure_file (some psiCpuOldContent) PRESSURE_FMT
          PRESSURE_FMT_NB_VAR) :=
  ⟨C1_pressure_grammar_selection.1 (kernel_version 5 13 0) (fun _ => some psiCpuOldContent)
      (by decide),
    C1_pressure_grammar_selection.2.1 (kernel_version 5 12 0) (fun _ => some psiCpuOldContent)
      (by decide),
    C1_pressure_grammar_selection.2.2.1 (kernel_version 5 12 0)
      (fun _ => some psiCpuOldContent) ⟨⟨⟨0, 2⟩, ⟨0, 2⟩, ⟨0, 2⟩, 100⟩, PressureAvg.default⟩
      (by decide) (by decide),
    C1_pressure_grammar_selection.2.2.2.1 0 (fun _ => some psiCpuOldContent)⟩

/-- Claim C9: for every pressure domain, when the pseudo-file cannot be
opened (`files t = none`), `PressureStore::new` returns `None` without
raising any error — indistinguishable in the return type from any other
no-data outcome. -/
theorem C9_absent_file_none :
    ∀ kv files t, files t = none → PressureStore.new kv files t = none := by
  intro kv files t h
  cases t with
  | Cpu =>
    rw [PressureStore.new]
    split <;> simp [PressureStore.parse_pressure_file, h]
  | Mem => simp [PressureStore.new, PressureStore.parse_pressure_file, h]
  | Io => simp [PressureStore.new, PressureStore.parse_pressure_file, h]

/-- Witness for C9 at a concrete absent file. -/
theorem C9_absent_file_none_witness :
    PressureStore.new 0 (fun _ => none) Pressure.Cpu = none :=
  C9_absent_file_none 0 (fun _ => none) Pressure.Cpu rfl
